import Mathlib

/-!
Verification of the lanner calendar core (token manager and event submitter).

The definitions below are a shallow embedding of `src/unnamed/part_001`
(`getAuthToken`, `clearTokenCache`, `createEventDirect`, `validateToken`)
and of the `GET_AUTH_TOKEN` message handler in `src/src/background.ts`.
Asynchronous browser calls are modelled with an explicit environment that
supplies the outcome of each external call, and every effectful step is
recorded in a trace of `Effect`s, so that properties such as "no network
call on the fast path" or "at most two POSTs" can be stated and proved.
-/

namespace Lanner

/-- The event shape from `part_001`: `CalendarEvent`. -/
structure CalendarEvent where
  summary : String
  description : Option String := none
  location : Option String := none
  startDateTime : String := ""
  startTimeZone : Option String := none
  endDateTime : String := ""
  endTimeZone : Option String := none
deriving DecidableEq, Repr

/-- `const LANNER_PREFIX = '📔 '` from `part_001`. -/
def LANNER_PREFIX : String := "📔 "

/-- `const TOKEN_CACHE_KEY = 'lanner_auth_token'` from `part_001`. -/
def TOKEN_CACHE_KEY : String := "lanner_auth_token"

/-- `const MAX_AGE = 50 * 60 * 1000` inside `getAuthToken`. -/
def MAX_AGE : Nat := 50 * 60 * 1000

/-- The `TokenCache` interface from `part_001`: `{token, timestamp}`. -/
structure TokenCache where
  token : String
  timestamp : Nat
deriving DecidableEq, Repr

/-- `chrome.storage.local`, modelled as an association list of key/value
pairs (the calendar module only ever stores `TokenCache` values). -/
structure Store where
  entries : List (String × TokenCache)
deriving DecidableEq, Repr

/-- `chrome.storage.local.get(key)`. -/
def Store.get (st : Store) (k : String) : Option TokenCache :=
  (st.entries.find? (fun p => p.1 == k)).map (fun p => p.2)

/-- `chrome.storage.local.set({[key]: v})`: overwrites the binding of `k`. -/
def Store.set (st : Store) (k : String) (v : TokenCache) : Store :=
  ⟨(k, v) :: st.entries.filter (fun p => p.1 != k)⟩

/-- `chrome.storage.local.remove(key)`. -/
def Store.remove (st : Store) (k : String) : Store :=
  ⟨st.entries.filter (fun p => p.1 != k)⟩

/-- One observable effect of the calendar module: storage operations,
identity-provider calls, the validation probe (a network GET), the
event-creation POST, and message-passing delegation. -/
inductive Effect where
  | storageGet (key : String)
  | storageSet (key : String) (tc : TokenCache)
  | storageRemove (key : String)
  | acquireTok (interactive : Bool)
  | removeCached (token : String)
  | probe (token : String)
  | postCreate (token : String) (body : CalendarEvent)
  | sendMsg (interactive : Bool)
deriving DecidableEq, Repr

/-- A JavaScript rejection value as observed by the callers: either a plain
string (the code does `reject(someString)`) or an `Error` object with a
message (the code does `throw new Error(msg)`). -/
inductive JsError where
  | str (s : String)
  | err (msg : String)
deriving DecidableEq, Repr

/-- JavaScript `error.toString()`: a string converts to itself, an `Error`
object converts to `"Error: " ++ message`. -/
def JsError.jsToString : JsError → String
  | .str s => s
  | .err m => "Error: " ++ m

/-- The outcome of one `chrome.identity.getAuthToken` callback:
`chrome.runtime.lastError?.message` and the `token` argument
(`none` models `undefined`). -/
structure AcquireOutcome where
  lastErrorMsg : Option String
  token : Option String
deriving DecidableEq, Repr

/-- The inner `getToken` promise of `getAuthToken`:
`if (chrome.runtime.lastError || !token) reject(lastError?.message || "No token received") else resolve(token)`.
Note `!token` is also true for the empty string. -/
def getTokenOnce (o : AcquireOutcome) : Except String String :=
  if o.lastErrorMsg.isSome ∨ o.token = none ∨ o.token = some "" then
    .error (match o.lastErrorMsg with
      | some m => if m = "" then "No token received" else m
      | none => "No token received")
  else
    .ok (o.token.getD "")

/-- The `response` object seen by the content-script `sendMessage` callback
in the fallback branch of `getAuthToken`. -/
structure MsgResponse where
  error : Option String
  token : Option String
deriving DecidableEq, Repr

/-- The content-script callback of the fallback branch of `getAuthToken`
(lines 108–126 of `part_001`): checks `chrome.runtime.lastError`, then the
truthiness of `response.error` and `response.token`. -/
def handleMsgCallback (lastErr : Option String) (resp : Option MsgResponse) :
    Except JsError String :=
  match lastErr with
  | some m => .error (.str m)
  | none =>
    match resp with
    | none => .error (.str "Failed to retrieve token from background")
    | some r =>
      if r.error.getD "" ≠ "" then .error (.str (r.error.getD ""))
      else if r.token.getD "" ≠ "" then .ok (r.token.getD "")
      else .error (.str "Failed to retrieve token from background")

/-- Environment for one `getAuthToken` invocation: whether
`chrome.identity` is defined in this context, the two `Date.now()` values
(at the freshness check and at the cache write), the outcomes of the up to
two `chrome.identity.getAuthToken` calls, the results of the up to two
`validateToken` probes, and the message-channel outcome for the fallback
branch. -/
structure AuthEnv where
  identityAvailable : Bool
  nowCheck : Nat
  nowStore : Nat
  acquire1 : AcquireOutcome
  acquire2 : AcquireOutcome
  validate1 : String → Bool
  validate2 : String → Bool
  msgLastError : Option String := none
  msgResponse : Option MsgResponse := none

/-- Result of a `getAuthToken` run: the resolved token or the rejection
value, the final storage state, and the trace of effects. -/
structure AuthResult where
  result : Except JsError String
  store : Store
  trace : List Effect
deriving Repr

/-- The cache-miss continuation of `getAuthToken` (`part_001` lines 54–126):
acquire a token, validate it, on invalidity discard it from the identity
cache and (if interactive) retry once, cache on success; or, when
`chrome.identity` is undefined, delegate via `GET_AUTH_TOKEN` message. -/
def getAuthTokenMiss (env : AuthEnv) (st : Store) (interactive : Bool) : AuthResult :=
  if env.identityAvailable then
    match getTokenOnce env.acquire1 with
    | .error s =>
      ⟨.error (.str s), st, [.storageGet TOKEN_CACHE_KEY, .acquireTok interactive]⟩
    | .ok t =>
      if env.validate1 t then
        ⟨.ok t, st.set TOKEN_CACHE_KEY ⟨t, env.nowStore⟩,
          [.storageGet TOKEN_CACHE_KEY, .acquireTok interactive, .probe t,
            .storageSet TOKEN_CACHE_KEY ⟨t, env.nowStore⟩]⟩
      else
        if interactive then
          match getTokenOnce env.acquire2 with
          | .error s =>
            ⟨.error (.str s), st,
              [.storageGet TOKEN_CACHE_KEY, .acquireTok interactive, .probe t,
                .removeCached t, .acquireTok true]⟩
          | .ok t2 =>
            if env.validate2 t2 then
              ⟨.ok t2, st.set TOKEN_CACHE_KEY ⟨t2, env.nowStore⟩,
                [.storageGet TOKEN_CACHE_KEY, .acquireTok interactive, .probe t,
                  .removeCached t, .acquireTok true, .probe t2,
                  .storageSet TOKEN_CACHE_KEY ⟨t2, env.nowStore⟩]⟩
            else
              ⟨.error (.err "Token still invalid after refresh"), st,
                [.storageGet TOKEN_CACHE_KEY, .acquireTok interactive, .probe t,
                  .removeCached t, .acquireTok true, .probe t2]⟩
        else
          ⟨.error (.err "Token invalid"), st,
            [.storageGet TOKEN_CACHE_KEY, .acquireTok interactive, .probe t,
              .removeCached t]⟩
  else
    ⟨handleMsgCallback env.msgLastError env.msgResponse, st,
      [.storageGet TOKEN_CACHE_KEY, .sendMsg interactive]⟩

/-- `getAuthToken` from `part_001` (lines 40–127): read the cache; if a
token is present, truthy and younger than `MAX_AGE`, return it with no
further call; otherwise fetch, validate and cache a new one (or delegate). -/
def getAuthToken (env : AuthEnv) (st : Store) (interactive : Bool) : AuthResult :=
  match st.get TOKEN_CACHE_KEY with
  | some tc =>
    if tc.token ≠ "" ∧ env.nowCheck - tc.timestamp < MAX_AGE then
      ⟨.ok tc.token, st, [.storageGet TOKEN_CACHE_KEY]⟩
    else
      getAuthTokenMiss env st interactive
  | none => getAuthTokenMiss env st interactive

/-- `clearTokenCache` from `part_001` (lines 129–133):
`chrome.storage.local.remove(TOKEN_CACHE_KEY)` and nothing else. -/
def clearTokenCache (st : Store) : Store × List Effect :=
  (st.remove TOKEN_CACHE_KEY, [.storageRemove TOKEN_CACHE_KEY])

/-- A parsed JSON value, as returned by `response.json()`. -/
inductive Jv where
  | null
  | bool (b : Bool)
  | num (n : Int)
  | str (s : String)
  | arr (xs : List Jv)
  | obj (fields : List (String × Jv))

/-- Object field lookup. -/
def jvLookup (k : String) : List (String × Jv) → Option Jv
  | [] => none
  | (k', v) :: rest => if k' == k then some v else jvLookup k rest

/-- JavaScript truthiness of a JSON value. -/
def Jv.truthy : Jv → Bool
  | .null => false
  | .bool b => b
  | .num n => n != 0
  | .str s => s != ""
  | .arr _ => true
  | .obj _ => true

mutual
/-- JavaScript `String(v)` for a JSON value (what `new Error(v)` stores as
its message when `v` is not already a string). -/
def jvToMessage : Jv → String
  | .null => "null"
  | .bool true => "true"
  | .bool false => "false"
  | .num n => toString n
  | .str s => s
  | .arr xs => jvArrJoin xs
  | .obj _ => "[object Object]"

/-- `Array.prototype.toString`: comma-joined elements, `null` printing as
the empty string. -/
def jvArrJoin : List Jv → String
  | [] => ""
  | [x] => jvElemMessage x
  | x :: rest => jvElemMessage x ++ "," ++ jvArrJoin rest

/-- One array element under `Array.prototype.toString`. -/
def jvElemMessage : Jv → String
  | .null => ""
  | v => jvToMessage v
end

/-- Evaluation of `error.error?.message` on the parsed error payload `b`:
`.error ()` models the thrown `TypeError` (reading `.error` on `null`),
`.ok none` models `undefined`, `.ok (some v)` the found field value. -/
def errorFieldMsg (b : Jv) : Except Unit (Option Jv) :=
  match b with
  | .null => .error ()
  | .obj fields =>
    match jvLookup "error" fields with
    | none => .ok none
    | some .null => .ok none
    | some (.obj efields) => .ok (jvLookup "message" efields)
    | some _ => .ok none
  | _ => .ok none

/-- The message of the `Error` thrown on a failed create request:
`new Error(error.error?.message || "Failed to create event")`. -/
def throwMessage (b : Jv) : Except Unit String :=
  match errorFieldMsg b with
  | .error () => .error ()
  | .ok none => .ok "Failed to create event"
  | .ok (some v) =>
    .ok (if v.truthy then jvToMessage v else "Failed to create event")

/-- An HTTP response to the create POST: the status code and the result of
`response.json()` (`none` when the body is not parseable JSON). -/
structure PostResponse where
  status : Nat
  body : Option Jv

/-- `response.ok`: status in the inclusive range 200–299. -/
def PostResponse.isOkStatus (r : PostResponse) : Prop :=
  200 ≤ r.status ∧ r.status < 300

instance (r : PostResponse) : Decidable r.isOkStatus := by
  unfold PostResponse.isOkStatus; infer_instance

/-- The rejection value of `createEventDirect`: a propagated `getAuthToken`
rejection, a `response.json()` parse failure, the `TypeError` from reading
`.error` on a `null` payload, or the `Error` built from the payload. -/
inductive CreateErr where
  | auth (e : JsError)
  | jsonParse
  | typeError
  | api (msg : String)
deriving DecidableEq, Repr

/-- Environment for one `createEventDirect` invocation: the environments of
the up to two `getAuthToken` calls and the response to the `n`-th POST
(`n = 0, 1`) carrying the given bearer token. -/
structure CreateEnv where
  auth1 : AuthEnv
  auth2 : AuthEnv
  post : Nat → String → PostResponse

/-- Result of a `createEventDirect` run. -/
structure CreateResult where
  result : Except CreateErr Jv
  store : Store
  trace : List Effect

/-- The payload actually transmitted: the input event with the fixed marker
prepended to `summary` (`{...event, summary: LANNER_PREFIX + event.summary}`). -/
def mkModified (event : CalendarEvent) : CalendarEvent :=
  { event with summary := LANNER_PREFIX ++ event.summary }

/-- The tail of `createEventDirect` (lines 173–180): on a non-ok final
response parse the error payload and throw; on success return the parsed
body. -/
def finishCreate (resp : PostResponse) (st : Store) (tr : List Effect) : CreateResult :=
  if resp.isOkStatus then
    match resp.body with
    | none => ⟨.error .jsonParse, st, tr⟩
    | some b => ⟨.ok b, st, tr⟩
  else
    match resp.body with
    | none => ⟨.error .jsonParse, st, tr⟩
    | some b =>
      match throwMessage b with
      | .error () => ⟨.error .typeError, st, tr⟩
      | .ok m => ⟨.error (.api m), st, tr⟩

/-- `createEventDirect` from `part_001` (lines 135–181): get a token, POST
the prefixed event, on a 401 clear the token cache, discard the token from
the identity cache, get a fresh token and retry the POST once, then handle
the final response. -/
def createEventDirect (env : CreateEnv) (st : Store) (event : CalendarEvent) :
    CreateResult :=
  let a1 := getAuthToken env.auth1 st true
  match a1.result with
  | .error e => ⟨.error (.auth e), a1.store, a1.trace⟩
  | .ok token =>
    let modifiedEvent := mkModified event
    let resp1 := env.post 0 token
    let tr1 := a1.trace ++ [.postCreate token modifiedEvent]
    if resp1.status = 401 then
      let cleared := clearTokenCache a1.store
      let tr2 := tr1 ++ cleared.2 ++ [.removeCached token]
      let a2 := getAuthToken env.auth2 cleared.1 true
      match a2.result with
      | .error e => ⟨.error (.auth e), a2.store, tr2 ++ a2.trace⟩
      | .ok token2 =>
        finishCreate (env.post 1 token2) a2.store
          (tr2 ++ a2.trace ++ [.postCreate token2 modifiedEvent])
    else
      finishCreate resp1 a1.store tr1

/-- The POSTs to the event-creation endpoint recorded in a trace, with
their bearer token and serialized body. -/
def postsOf (tr : List Effect) : List (String × CalendarEvent) :=
  tr.filterMap (fun e => match e with | .postCreate t b => some (t, b) | _ => none)

/-- Number of POSTs to the event-creation endpoint in a trace. -/
def countPost (tr : List Effect) : Nat := (postsOf tr).length

/-- Number of identity-provider acquisition calls in a trace. -/
def countAcquire (tr : List Effect) : Nat :=
  (tr.filter (fun e => match e with | .acquireTok _ => true | _ => false)).length

theorem postsOf_append (t1 t2 : List Effect) :
    postsOf (t1 ++ t2) = postsOf t1 ++ postsOf t2 := by
  simp [postsOf]

theorem postsOf_nil : postsOf [] = [] := rfl

theorem postsOf_single_post (tok : String) (b : CalendarEvent) :
    postsOf [Effect.postCreate tok b] = [(tok, b)] := rfl

theorem postsOf_storageRemove (k : String) :
    postsOf [Effect.storageRemove k] = [] := rfl

theorem postsOf_removeCached (t : String) :
    postsOf [Effect.removeCached t] = [] := rfl

theorem postsOf_cons_post (tok : String) (b : CalendarEvent) (tr : List Effect) :
    postsOf (Effect.postCreate tok b :: tr) = (tok, b) :: postsOf tr := rfl

theorem postsOf_cons_storageRemove (k : String) (tr : List Effect) :
    postsOf (Effect.storageRemove k :: tr) = postsOf tr := rfl

theorem postsOf_cons_removeCached (t : String) (tr : List Effect) :
    postsOf (Effect.removeCached t :: tr) = postsOf tr := rfl

theorem getAuthTokenMiss_posts (env : AuthEnv) (st : Store) (i : Bool) :
    postsOf (getAuthTokenMiss env st i).trace = [] := by
  unfold getAuthTokenMiss
  repeat' split <;> try rfl

theorem getAuthToken_posts (env : AuthEnv) (st : Store) (i : Bool) :
    postsOf (getAuthToken env st i).trace = [] := by
  unfold getAuthToken
  split
  · split
    · rfl
    · exact getAuthTokenMiss_posts env st i
  · exact getAuthTokenMiss_posts env st i

theorem store_get_remove_self (st : Store) (k : String) :
    (st.remove k).get k = none := by
  have h : (st.remove k).entries.find? (fun p => p.1 == k) = none := by
    rw [List.find?_eq_none]
    intro x hx
    simp only [Store.remove, List.mem_filter, bne_iff_ne, ne_eq] at hx
    simp [hx.2]
  simp [Store.get, h]

theorem store_get_remove_other (st : Store) (k k' : String) (h : k' ≠ k) :
    (st.remove k).get k' = st.get k' := by
  simp only [Store.get, Store.remove]
  congr 1
  induction st.entries with
  | nil => rfl
  | cons p rest ih =>
    by_cases hp : p.1 = k
    · have hk' : (p.1 == k') = false := by
        simp [hp]
        exact fun hcontra => h hcontra.symm
      have hcond : (p.1 != k) = false := by simp [hp]
      simp [List.filter_cons, hcond, hk', ih]
    · have hb : (p.1 != k) = true := by simp [hp]
      simp only [List.filter_cons, hb, List.find?_cons]
      by_cases hq : p.1 = k'
      · simp [hq]
      · have : (p.1 == k') = false := by simp [hq]
        simp [this, ih]

theorem store_remove_idem (st : Store) (k : String) :
    (st.remove k).remove k = st.remove k := by
  simp [Store.remove, List.filter_filter]

/-- C8: `clearTokenCache` (the spec's `invalidate()`) unconditionally
removes the `TOKEN_CACHE_KEY` binding, is idempotent — in particular
calling it on a store with nothing cached succeeds and leaves the store
without the key — leaves every other key untouched, and its only effect is
the storage removal (it never touches the provider-side identity cache). -/
theorem clearTokenCache_unconditional_idempotent (st : Store) :
    (clearTokenCache st).1.get TOKEN_CACHE_KEY = none ∧
    clearTokenCache (clearTokenCache st).1 = clearTokenCache st ∧
    (clearTokenCache st).2 = [Effect.storageRemove TOKEN_CACHE_KEY] ∧
    (∀ k, k ≠ TOKEN_CACHE_KEY → (clearTokenCache st).1.get k = st.get k) := by
  refine ⟨store_get_remove_self st TOKEN_CACHE_KEY, ?_, rfl, ?_⟩
  · simp [clearTokenCache, store_remove_idem]
  · intro k hk
    exact store_get_remove_other st TOKEN_CACHE_KEY k hk

/-- Witness for C8 at a concrete store holding the token key and one
unrelated key. -/
theorem clearTokenCache_unconditional_idempotent_witness :
    (clearTokenCache ⟨[("lanner_auth_token", ⟨"tok", 3⟩), ("other", ⟨"o", 1⟩)]⟩).1.get
        "other" =
      Store.get ⟨[("lanner_auth_token", ⟨"tok", 3⟩), ("other", ⟨"o", 1⟩)]⟩ "other" :=
  (clearTokenCache_unconditional_idempotent
      ⟨[("lanner_auth_token", ⟨"tok", 3⟩), ("other", ⟨"o", 1⟩)]⟩).2.2.2
    "other" (by decide)

/-- Sample environment: identity available, acquisitions yield `"tokA"`
then `"tokB"`, every validation probe succeeds. -/
def envOkSample : AuthEnv where
  identityAvailable := true
  nowCheck := 100
  nowStore := 200
  acquire1 := ⟨none, some "tokA"⟩
  acquire2 := ⟨none, some "tokB"⟩
  validate1 := fun _ => true
  validate2 := fun _ => true

/-- Sample environment: identity available, the cache (if any) is stale at
`nowCheck = MAX_AGE`, acquisitions yield `"new"` then `"new2"`, every
validation probe fails. -/
def envBadVal : AuthEnv where
  identityAvailable := true
  nowCheck := MAX_AGE
  nowStore := MAX_AGE + 1
  acquire1 := ⟨none, some "new"⟩
  acquire2 := ⟨none, some "new2"⟩
  validate1 := fun _ => false
  validate2 := fun _ => false

/-- C2 (amended): for every cached token with a nonempty token string whose
age satisfies `now - timestamp < MAX_AGE`, `getAuthToken` — for either value
of `interactive` — returns the cached token unchanged, leaves storage
unchanged, and its only effect is the storage read: no identity-provider
acquisition, no validation probe, no message-passing delegation. -/
theorem cached_fresh_fast_path (env : AuthEnv) (st : Store) (i : Bool)
    (tc : TokenCache) (hget : st.get TOKEN_CACHE_KEY = some tc)
    (htok : tc.token ≠ "") (hfresh : env.nowCheck - tc.timestamp < MAX_AGE) :
    getAuthToken env st i = ⟨.ok tc.token, st, [.storageGet TOKEN_CACHE_KEY]⟩ := by
  unfold getAuthToken
  rw [hget]
  simp only [ne_eq, htok, not_false_eq_true, hfresh, and_self, if_true]

/-- Witness for the amended C2 at a concrete fresh cache entry. -/
theorem cached_fresh_fast_path_witness :
    getAuthToken envOkSample ⟨[("lanner_auth_token", ⟨"tok", 50⟩)]⟩ true =
      ⟨.ok "tok", ⟨[("lanner_auth_token", ⟨"tok", 50⟩)]⟩,
        [.storageGet TOKEN_CACHE_KEY]⟩ :=
  cached_fresh_fast_path envOkSample ⟨[("lanner_auth_token", ⟨"tok", 50⟩)]⟩ true
    ⟨"tok", 50⟩ rfl (by decide) (by decide)

/-- C2 counterexample: a fresh cached entry whose token string is empty is
not returned by `getAuthToken` — the code's truthiness check skips it, a
new token is acquired over the network (an identity-provider call appears
in the trace) and that token is returned instead of the cached one. -/
theorem cached_fresh_empty_token_cex :
    (100 : Nat) - 50 < MAX_AGE ∧
    (getAuthToken envOkSample ⟨[("lanner_auth_token", ⟨"", 50⟩)]⟩ true).result =
      .ok "tokA" ∧
    (Except.ok "tokA" : Except JsError String) ≠ .ok "" ∧
    Effect.acquireTok true ∈
      (getAuthToken envOkSample ⟨[("lanner_auth_token", ⟨"", 50⟩)]⟩ true).trace := by
  refine ⟨by decide, rfl, by simp, by decide⟩

/-- C3: when the cache is empty or holds a token of age `≥ MAX_AGE` and
`chrome.identity` is available, `getAuthToken` acquires a new token, probes
it for validity, and on success overwrites the stored `TokenCache` with the
new token and the fresh `Date.now()` taken at the write, before returning
the token. -/
theorem stale_cache_refresh (env : AuthEnv) (st : Store) (i : Bool) (t : String)
    (havail : env.identityAvailable = true)
    (hstale : st.get TOKEN_CACHE_KEY = none ∨
      ∃ tc, st.get TOKEN_CACHE_KEY = some tc ∧ MAX_AGE ≤ env.nowCheck - tc.timestamp)
    (hacq : getTokenOnce env.acquire1 = .ok t)
    (hval : env.validate1 t = true) :
    getAuthToken env st i =
      ⟨.ok t, st.set TOKEN_CACHE_KEY ⟨t, env.nowStore⟩,
        [.storageGet TOKEN_CACHE_KEY, .acquireTok i, .probe t,
          .storageSet TOKEN_CACHE_KEY ⟨t, env.nowStore⟩]⟩ := by
  have hmiss : getAuthToken env st i = getAuthTokenMiss env st i := by
    unfold getAuthToken
    rcases hstale with hnone | ⟨tc, hsome, hage⟩
    · rw [hnone]
    · simp only [hsome]
      rw [if_neg]
      intro hcontr
      exact absurd hcontr.2 (not_lt.mpr hage)
  rw [hmiss]
  unfold getAuthTokenMiss
  rw [havail, hacq]
  simp only [if_true, hval]

/-- Witness for C3 at an empty store. -/
theorem stale_cache_refresh_witness :
    getAuthToken envOkSample ⟨[]⟩ true =
      ⟨.ok "tokA", Store.set ⟨[]⟩ TOKEN_CACHE_KEY ⟨"tokA", 200⟩,
        [.storageGet TOKEN_CACHE_KEY, .acquireTok true, .probe "tokA",
          .storageSet TOKEN_CACHE_KEY ⟨"tokA", 200⟩]⟩ :=
  stale_cache_refresh envOkSample ⟨[]⟩ true "tokA" rfl (Or.inl rfl) rfl rfl

/-- Number of validation probes in a trace. -/
def countProbe (tr : List Effect) : Nat :=
  (tr.filter (fun e => match e with | .probe _ => true | _ => false)).length

/-- The cache-missed hypothesis: the stored entry, if any, is stale at the
freshness check (or holds an empty token string). -/
def cacheMisses (env : AuthEnv) (st : Store) : Prop :=
  st.get TOKEN_CACHE_KEY = none ∨
    ∃ tc, st.get TOKEN_CACHE_KEY = some tc ∧ MAX_AGE ≤ env.nowCheck - tc.timestamp

theorem getAuthToken_eq_miss (env : AuthEnv) (st : Store) (i : Bool)
    (hstale : cacheMisses env st) :
    getAuthToken env st i = getAuthTokenMiss env st i := by
  unfold getAuthToken
  rcases hstale with hnone | ⟨tc, hsome, hage⟩
  · rw [hnone]
  · simp only [hsome]
    rw [if_neg]
    intro hcontr
    exact absurd hcontr.2 (not_lt.mpr hage)

/-- Branch lemma: acquisition fails on a cache miss. -/
theorem getAuthTokenMiss_acq_error (env : AuthEnv) (st : Store) (i : Bool) (s : String)
    (havail : env.identityAvailable = true)
    (hacq : getTokenOnce env.acquire1 = .error s) :
    getAuthTokenMiss env st i =
      ⟨.error (.str s), st, [.storageGet TOKEN_CACHE_KEY, .acquireTok i]⟩ := by
  unfold getAuthTokenMiss
  simp [havail, hacq]

/-- Branch lemma: acquisition and validation succeed on a cache miss. -/
theorem getAuthTokenMiss_ok (env : AuthEnv) (st : Store) (i : Bool) (t : String)
    (havail : env.identityAvailable = true)
    (hacq : getTokenOnce env.acquire1 = .ok t) (hval : env.validate1 t = true) :
    getAuthTokenMiss env st i =
      ⟨.ok t, st.set TOKEN_CACHE_KEY ⟨t, env.nowStore⟩,
        [.storageGet TOKEN_CACHE_KEY, .acquireTok i, .probe t,
          .storageSet TOKEN_CACHE_KEY ⟨t, env.nowStore⟩]⟩ := by
  unfold getAuthTokenMiss
  simp [havail, hacq, hval]

/-- Branch lemma: validation fails, `interactive = false`. -/
theorem getAuthTokenMiss_invalid_false (env : AuthEnv) (st : Store) (t : String)
    (havail : env.identityAvailable = true)
    (hacq : getTokenOnce env.acquire1 = .ok t) (hval : env.validate1 t = false) :
    getAuthTokenMiss env st false =
      ⟨.error (.err "Token invalid"), st,
        [.storageGet TOKEN_CACHE_KEY, .acquireTok false, .probe t,
          .removeCached t]⟩ := by
  unfold getAuthTokenMiss
  simp [havail, hacq, hval]

/-- Branch lemma: validation fails, `interactive = true`, the second
acquisition fails. -/
theorem getAuthTokenMiss_retry_acq_error (env : AuthEnv) (st : Store) (t s : String)
    (havail : env.identityAvailable = true)
    (hacq : getTokenOnce env.acquire1 = .ok t) (hval : env.validate1 t = false)
    (hacq2 : getTokenOnce env.acquire2 = .error s) :
    getAuthTokenMiss env st true =
      ⟨.error (.str s), st,
        [.storageGet TOKEN_CACHE_KEY, .acquireTok true, .probe t,
          .removeCached t, .acquireTok true]⟩ := by
  unfold getAuthTokenMiss
  simp [havail, hacq, hval, hacq2]

/-- Branch lemma: validation fails, `interactive = true`, the second
acquisition succeeds and its validation succeeds. -/
theorem getAuthTokenMiss_retry_ok (env : AuthEnv) (st : Store) (t t2 : String)
    (havail : env.identityAvailable = true)
    (hacq : getTokenOnce env.acquire1 = .ok t) (hval : env.validate1 t = false)
    (hacq2 : getTokenOnce env.acquire2 = .ok t2) (hval2 : env.validate2 t2 = true) :
    getAuthTokenMiss env st true =
      ⟨.ok t2, st.set TOKEN_CACHE_KEY ⟨t2, env.nowStore⟩,
        [.storageGet TOKEN_CACHE_KEY, .acquireTok true, .probe t, .removeCached t,
          .acquireTok true, .probe t2,
          .storageSet TOKEN_CACHE_KEY ⟨t2, env.nowStore⟩]⟩ := by
  unfold getAuthTokenMiss
  simp [havail, hacq, hval, hacq2, hval2]

/-- Branch lemma: validation fails, `interactive = true`, the second
acquisition succeeds but its validation fails too. -/
theorem getAuthTokenMiss_retry_bad (env : AuthEnv) (st : Store) (t t2 : String)
    (havail : env.identityAvailable = true)
    (hacq : getTokenOnce env.acquire1 = .ok t) (hval : env.validate1 t = false)
    (hacq2 : getTokenOnce env.acquire2 = .ok t2) (hval2 : env.validate2 t2 = false) :
    getAuthTokenMiss env st true =
      ⟨.error (.err "Token still invalid after refresh"), st,
        [.storageGet TOKEN_CACHE_KEY, .acquireTok true, .probe t, .removeCached t,
          .acquireTok true, .probe t2]⟩ := by
  unfold getAuthTokenMiss
  simp [havail, hacq, hval, hacq2, hval2]

/-- C4 (amended): `getAuthToken` never removes the `TokenCache` entry from
durable storage — in particular not on failed validation, where it only
discards the freshly acquired token from the provider-side identity cache;
the storage entry is deleted only by `clearTokenCache` (invoked by the
submitter on a 401). -/
theorem failed_validation_keeps_storage (env : AuthEnv) (st : Store) (i : Bool) :
    (∀ k, Effect.storageRemove k ∉ (getAuthToken env st i).trace) ∧
    (∀ t, env.identityAvailable = true → cacheMisses env st →
      getTokenOnce env.acquire1 = .ok t → env.validate1 t = false →
      Effect.removeCached t ∈ (getAuthToken env st i).trace) := by
  constructor
  · intro k
    unfold getAuthToken getAuthTokenMiss
    repeat' split
    all_goals simp
  · intro t havail hstale hacq hval
    rw [getAuthToken_eq_miss env st i hstale]
    cases i with
    | false =>
      rw [getAuthTokenMiss_invalid_false env st t havail hacq hval]
      simp
    | true =>
      rcases h2 : getTokenOnce env.acquire2 with s | t2
      · rw [getAuthTokenMiss_retry_acq_error env st t s havail hacq hval h2]
        simp
      · rcases hv2 : env.validate2 t2 with _ | _
        · rw [getAuthTokenMiss_retry_bad env st t t2 havail hacq hval h2 hv2]
          simp
        · rw [getAuthTokenMiss_retry_ok env st t t2 havail hacq hval h2 hv2]
          simp

/-- Witness for the amended C4: under a failing validation with
`interactive = false`, the provider-side discard of `"new"` is in the
trace (and, per the first conjunct, no storage removal ever is). -/
theorem failed_validation_keeps_storage_witness :
    Effect.removeCached "new" ∈
      (getAuthToken envBadVal ⟨[("lanner_auth_token", ⟨"old", 0⟩)]⟩ false).trace :=
  (failed_validation_keeps_storage envBadVal ⟨[("lanner_auth_token", ⟨"old", 0⟩)]⟩
      false).2
    "new" rfl (Or.inr ⟨⟨"old", 0⟩, rfl, by decide⟩) rfl rfl

/-- C4 counterexample: a stale entry `{"old", 0}` is still present in
storage after `getAuthToken` fails a validation — the claim's "deleted from
durable storage on failed validation" does not happen. -/
theorem failed_validation_storage_cex :
    envBadVal.validate1 "new" = false ∧
    (getAuthToken envBadVal ⟨[("lanner_auth_token", ⟨"old", 0⟩)]⟩ false).result =
      .error (.err "Token invalid") ∧
    (getAuthToken envBadVal ⟨[("lanner_auth_token", ⟨"old", 0⟩)]⟩ false).store.get
        TOKEN_CACHE_KEY = some ⟨"old", 0⟩ :=
  ⟨rfl, rfl, rfl⟩

/-- C6: on a cache miss where the freshly acquired token `t` fails
validation: with `interactive = false` the call fails with the
`"Token invalid"` error after a single acquisition and a single probe (no
second, possibly consent-prompting, acquisition); with `interactive = true`
the token is discarded from the provider-side cache and exactly one
interactive re-acquisition and one re-validation happen, the call returning
the new token iff its validation succeeds and failing with
`"Token still invalid after refresh"` otherwise. -/
theorem invalid_token_retry_policy (env : AuthEnv) (st : Store) (t : String)
    (havail : env.identityAvailable = true) (hstale : cacheMisses env st)
    (hacq : getTokenOnce env.acquire1 = .ok t)
    (hval : env.validate1 t = false) :
    ((getAuthToken env st false).result = .error (.err "Token invalid") ∧
      countAcquire (getAuthToken env st false).trace = 1 ∧
      countProbe (getAuthToken env st false).trace = 1) ∧
    (Effect.removeCached t ∈ (getAuthToken env st true).trace ∧
      ∀ t2, getTokenOnce env.acquire2 = .ok t2 →
        countAcquire (getAuthToken env st true).trace = 2 ∧
        countProbe (getAuthToken env st true).trace = 2 ∧
        (env.validate2 t2 = true → (getAuthToken env st true).result = .ok t2) ∧
        (env.validate2 t2 = false →
          (getAuthToken env st true).result =
            .error (.err "Token still invalid after refresh"))) := by
  have hmiss0 := getAuthToken_eq_miss env st false hstale
  have hmiss1 := getAuthToken_eq_miss env st true hstale
  refine ⟨?_, ?_, ?_⟩
  · rw [hmiss0, getAuthTokenMiss_invalid_false env st t havail hacq hval]
    exact ⟨rfl, rfl, rfl⟩
  · rw [hmiss1]
    rcases h2 : getTokenOnce env.acquire2 with s | t2
    · rw [getAuthTokenMiss_retry_acq_error env st t s havail hacq hval h2]
      simp
    · rcases hv2 : env.validate2 t2 with _ | _
      · rw [getAuthTokenMiss_retry_bad env st t t2 havail hacq hval h2 hv2]
        simp
      · rw [getAuthTokenMiss_retry_ok env st t t2 havail hacq hval h2 hv2]
        simp
  · intro t2 hacq2
    rw [hmiss1]
    rcases hv2 : env.validate2 t2 with _ | _
    · rw [getAuthTokenMiss_retry_bad env st t t2 havail hacq hval hacq2 hv2]
      exact ⟨rfl, rfl, fun h => by simp [hv2] at h, fun _ => rfl⟩
    · rw [getAuthTokenMiss_retry_ok env st t t2 havail hacq hval hacq2 hv2]
      exact ⟨rfl, rfl, fun _ => rfl, fun h => by simp [hv2] at h⟩

/-- Witness for C6: failing first validation with a successful second
acquisition whose validation also fails. -/
theorem invalid_token_retry_policy_witness :
    (getAuthToken envBadVal ⟨[]⟩ false).result = .error (.err "Token invalid") ∧
    (getAuthToken envBadVal ⟨[]⟩ true).result =
      .error (.err "Token still invalid after refresh") :=
  ⟨(invalid_token_retry_policy envBadVal ⟨[]⟩ "new" rfl (Or.inl rfl) rfl rfl).1.1,
    (((invalid_token_retry_policy envBadVal ⟨[]⟩ "new" rfl (Or.inl rfl) rfl rfl).2.2
        "new2" rfl).2.2.2) rfl⟩

/-- Whether a result is a success. -/
def isOkResult {α β : Type} : Except α β → Bool
  | .ok _ => true
  | .error _ => false

theorem finishCreate_trace (r : PostResponse) (st : Store) (tr : List Effect) :
    (finishCreate r st tr).trace = tr := by
  unfold finishCreate
  repeat' split
  all_goals rfl

theorem finishCreate_not_ok (r : PostResponse) (st : Store) (tr : List Effect)
    (h : ¬ r.isOkStatus) :
    isOkResult (finishCreate r st tr).result = false := by
  unfold finishCreate
  rw [if_neg h]
  repeat' split
  all_goals rfl

theorem finishCreate_ok (r : PostResponse) (st : Store) (tr : List Effect) (b : Jv)
    (hok : r.isOkStatus) (hb : r.body = some b) :
    finishCreate r st tr = ⟨.ok b, st, tr⟩ := by
  unfold finishCreate
  rw [if_pos hok]
  simp only [hb]

theorem finishCreate_err_parse (r : PostResponse) (st : Store) (tr : List Effect)
    (hok : ¬ r.isOkStatus) (hb : r.body = none) :
    finishCreate r st tr = ⟨.error .jsonParse, st, tr⟩ := by
  unfold finishCreate
  rw [if_neg hok]
  simp only [hb]

theorem finishCreate_err_api (r : PostResponse) (st : Store) (tr : List Effect)
    (b : Jv) (m : String) (hok : ¬ r.isOkStatus) (hb : r.body = some b)
    (hm : throwMessage b = .ok m) :
    finishCreate r st tr = ⟨.error (.api m), st, tr⟩ := by
  unfold finishCreate
  rw [if_neg hok]
  simp only [hb, hm]

/-- Reduction of `createEventDirect` when the first response is not a 401. -/
theorem createEventDirect_no401 (env : CreateEnv) (st : Store) (ev : CalendarEvent)
    (token : String) (htok : (getAuthToken env.auth1 st true).result = .ok token)
    (h401 : (env.post 0 token).status ≠ 401) :
    createEventDirect env st ev =
      finishCreate (env.post 0 token) (getAuthToken env.auth1 st true).store
        ((getAuthToken env.auth1 st true).trace ++
          [.postCreate token (mkModified ev)]) := by
  unfold createEventDirect
  simp only [htok]
  rw [if_neg h401]

/-- Reduction of `createEventDirect` when the first response is a 401 and
the refreshed `getAuthToken` succeeds. -/
theorem createEventDirect_401_retry (env : CreateEnv) (st : Store)
    (ev : CalendarEvent) (token token2 : String)
    (htok : (getAuthToken env.auth1 st true).result = .ok token)
    (h401 : (env.post 0 token).status = 401)
    (htok2 : (getAuthToken env.auth2
        ((getAuthToken env.auth1 st true).store.remove TOKEN_CACHE_KEY)
        true).result = .ok token2) :
    createEventDirect env st ev =
      finishCreate (env.post 1 token2)
        (getAuthToken env.auth2
          ((getAuthToken env.auth1 st true).store.remove TOKEN_CACHE_KEY)
          true).store
        ((((getAuthToken env.auth1 st true).trace ++
              [.postCreate token (mkModified ev)]) ++
            [.storageRemove TOKEN_CACHE_KEY] ++ [.removeCached token]) ++
          (getAuthToken env.auth2
            ((getAuthToken env.auth1 st true).store.remove TOKEN_CACHE_KEY)
            true).trace ++
          [.postCreate token2 (mkModified ev)]) := by
  unfold createEventDirect
  simp only [htok, clearTokenCache]
  rw [if_pos h401]
  simp only [htok2]

/-- C1: in every environment `createEventDirect` records at most two POSTs
to the event-creation endpoint; and when every response to a POST carries
status 401 the call fails — after the second 401 it returns an error
without a third request. -/
theorem createEvent_at_most_one_retry (env : CreateEnv) (st : Store)
    (ev : CalendarEvent) :
    countPost (createEventDirect env st ev).trace ≤ 2 ∧
    ((∀ n tok, (env.post n tok).status = 401) →
      isOkResult (createEventDirect env st ev).result = false) := by
  constructor
  · simp only [createEventDirect]
    split
    · simp [countPost, getAuthToken_posts]
    · split
      · split
        · simp [countPost, postsOf_append, getAuthToken_posts, postsOf_single_post,
            postsOf_storageRemove, postsOf_removeCached, postsOf_cons_post,
            postsOf_cons_storageRemove, postsOf_cons_removeCached, clearTokenCache]
        · simp [countPost, finishCreate_trace, postsOf_append, getAuthToken_posts,
            postsOf_single_post, postsOf_storageRemove, postsOf_removeCached,
            postsOf_cons_post, postsOf_cons_storageRemove, postsOf_cons_removeCached, postsOf_nil,
            clearTokenCache]
      · simp [countPost, finishCreate_trace, postsOf_append, getAuthToken_posts,
          postsOf_single_post]
  · intro hall
    simp only [createEventDirect]
    split
    · rfl
    · split
      · split
        · rfl
        · refine finishCreate_not_ok _ _ _ ?_
          intro hok
          rcases hok with ⟨_, hlt⟩
          rw [hall 1 _] at hlt
          omega
      · rename_i token heqtok h401
        exact absurd (hall 0 token) h401

/-- Sample submitter environment: auth through `envOkSample`, every POST
answered 200 with body `{id:"abc"}`. -/
def envCreate200 : CreateEnv where
  auth1 := envOkSample
  auth2 := envOkSample
  post := fun _ _ => ⟨200, some (.obj [("id", .str "abc")])⟩

/-- Sample submitter environment: auth through `envOkSample`, every POST
answered 401 with an empty JSON object body. -/
def envCreate401 : CreateEnv where
  auth1 := envOkSample
  auth2 := envOkSample
  post := fun _ _ => ⟨401, some (.obj [])⟩

/-- A sample event. -/
def evSample : CalendarEvent :=
  { summary := "Dentist", startDateTime := "2026-01-01T10:00:00",
    endDateTime := "2026-01-01T11:00:00" }

/-- Witness for C1: with every POST answered 401, the call fails and the
trace holds exactly two POSTs. -/
theorem createEvent_at_most_one_retry_witness :
    isOkResult (createEventDirect envCreate401 ⟨[]⟩ evSample).result = false :=
  (createEvent_at_most_one_retry envCreate401 ⟨[]⟩ evSample).2 (fun _ _ => rfl)

/-- C10: every POST issued within a single `createEventDirect` invocation
carries the same serialized body — the input event with the marker applied
to `summary` exactly once, before the first request — so the retried
request's body is identical to the first one's and only the bearer token
can differ between the two attempts. -/
theorem retry_body_unchanged (env : CreateEnv) (st : Store) (ev : CalendarEvent) :
    ∀ p ∈ postsOf (createEventDirect env st ev).trace, p.2 = mkModified ev := by
  simp only [createEventDirect]
  split
  · simp [getAuthToken_posts]
  · split
    · split
      · simp [postsOf_append, getAuthToken_posts, postsOf_single_post,
          postsOf_storageRemove, postsOf_removeCached, postsOf_cons_post,
          postsOf_cons_storageRemove, postsOf_cons_removeCached, clearTokenCache]
      · simp [finishCreate_trace, postsOf_append, getAuthToken_posts,
          postsOf_single_post, postsOf_storageRemove, postsOf_removeCached,
          postsOf_cons_post, postsOf_cons_storageRemove, postsOf_cons_removeCached,
          postsOf_nil, clearTokenCache]
    · simp [finishCreate_trace, postsOf_append, getAuthToken_posts,
        postsOf_single_post]

/-- Witness for C10 at a concrete run (one POST, carrying the prefixed
summary). -/
theorem retry_body_unchanged_witness :
    ("tokA", mkModified evSample).2 = mkModified evSample :=
  retry_body_unchanged envCreate200 ⟨[]⟩ evSample ("tokA", mkModified evSample)
    (by decide)

/-- C7: the transmitted JSON payload equals the input event except that its
`summary` is the fixed marker concatenated with the input's summary (every
other field is unchanged), and on success the caller receives the parsed
provider response body unmodified — both when the first POST succeeds and
when a 401-triggered retry succeeds. -/
theorem create_event_payload_and_result (env : CreateEnv) (st : Store)
    (ev : CalendarEvent) :
    (mkModified ev).summary = LANNER_PREFIX ++ ev.summary ∧
    (mkModified ev).description = ev.description ∧
    (mkModified ev).location = ev.location ∧
    (mkModified ev).startDateTime = ev.startDateTime ∧
    (mkModified ev).startTimeZone = ev.startTimeZone ∧
    (mkModified ev).endDateTime = ev.endDateTime ∧
    (mkModified ev).endTimeZone = ev.endTimeZone ∧
    (∀ token b, (getAuthToken env.auth1 st true).result = .ok token →
      (env.post 0 token).isOkStatus → (env.post 0 token).body = some b →
      (createEventDirect env st ev).result = .ok b ∧
      postsOf (createEventDirect env st ev).trace = [(token, mkModified ev)]) ∧
    (∀ token token2 b, (getAuthToken env.auth1 st true).result = .ok token →
      (env.post 0 token).status = 401 →
      (getAuthToken env.auth2
        ((getAuthToken env.auth1 st true).store.remove TOKEN_CACHE_KEY)
        true).result = .ok token2 →
      (env.post 1 token2).isOkStatus → (env.post 1 token2).body = some b →
      (createEventDirect env st ev).result = .ok b) := by
  refine ⟨rfl, rfl, rfl, rfl, rfl, rfl, rfl, ?_, ?_⟩
  · intro token b htok hok hb
    have hne : (env.post 0 token).status ≠ 401 := by
      rcases hok with ⟨_, hlt⟩
      omega
    rw [createEventDirect_no401 env st ev token htok hne,
      finishCreate_ok _ _ _ b hok hb]
    refine ⟨rfl, ?_⟩
    simp [postsOf_append, getAuthToken_posts, postsOf_single_post]
  · intro token token2 b htok h401 htok2 hok hb
    rw [createEventDirect_401_retry env st ev token token2 htok h401 htok2,
      finishCreate_ok _ _ _ b hok hb]

/-- Witness for C7: a 200 response with body `{id:"abc"}` makes the call
resolve with exactly that parsed object. -/
theorem create_event_payload_and_result_witness :
    (createEventDirect envCreate200 ⟨[]⟩ evSample).result =
      .ok (.obj [("id", .str "abc")]) :=
  ((create_event_payload_and_result envCreate200 ⟨[]⟩ evSample).2.2.2.2.2.2.2.1
    "tokA" (.obj [("id", .str "abc")]) rfl (by decide) rfl).1

/-- C5 (amended): a final non-401, non-2xx response makes
`createEventDirect` fail with no retry (a single POST is issued): with a
parseable JSON payload the rejection is the `Error` whose message is
`error.error?.message` when that is truthy and the generic
"Failed to create event" when it is absent or falsy (the `throwMessage`
computation); with an unparseable payload the `response.json()` parse
failure itself propagates instead of the generic message. -/
theorem non401_failure_no_retry (env : CreateEnv) (st : Store) (ev : CalendarEvent)
    (token : String)
    (htok : (getAuthToken env.auth1 st true).result = .ok token)
    (h401 : (env.post 0 token).status ≠ 401)
    (hnok : ¬ (env.post 0 token).isOkStatus) :
    countPost (createEventDirect env st ev).trace = 1 ∧
    (∀ b m, (env.post 0 token).body = some b → throwMessage b = .ok m →
      (createEventDirect env st ev).result = .error (.api m)) ∧
    ((env.post 0 token).body = none →
      (createEventDirect env st ev).result = .error .jsonParse) := by
  have hred := createEventDirect_no401 env st ev token htok h401
  refine ⟨?_, ?_, ?_⟩
  · rw [hred]
    simp [countPost, finishCreate_trace, postsOf_append, getAuthToken_posts,
      postsOf_single_post]
  · intro b m hb hm
    rw [hred, finishCreate_err_api _ _ _ b m hnok hb hm]
  · intro hb
    rw [hred, finishCreate_err_parse _ _ _ hnok hb]

/-- Sample submitter environment: every POST answered 403 with body
`{error:{message:"Forbidden"}}`. -/
def envCreate403F : CreateEnv where
  auth1 := envOkSample
  auth2 := envOkSample
  post := fun _ _ =>
    ⟨403, some (.obj [("error", .obj [("message", .str "Forbidden")])])⟩

/-- Witness for the amended C5: the 403 `{error:{message:"Forbidden"}}`
scenario rejects with message `"Forbidden"`. -/
theorem non401_failure_no_retry_witness :
    (createEventDirect envCreate403F ⟨[]⟩ evSample).result =
      .error (.api "Forbidden") :=
  (non401_failure_no_retry envCreate403F ⟨[]⟩ evSample "tokA" rfl (by decide)
      (by decide)).2.1
    (.obj [("error", .obj [("message", .str "Forbidden")])]) "Forbidden" rfl
    (by simp [throwMessage, errorFieldMsg, jvLookup, Jv.truthy, jvToMessage])

/-- Sample submitter environment: every POST answered 403 with a body that
is not parseable JSON. -/
def envCreate403Bad : CreateEnv where
  auth1 := envOkSample
  auth2 := envOkSample
  post := fun _ _ => ⟨403, none⟩

/-- C5 counterexample: a 403 whose body is not parseable JSON makes
`createEventDirect` reject with the propagated `response.json()` parse
failure, not with the generic "Failed to create event" message the claim
requires for unparseable payloads. -/
theorem unparseable_error_body_cex :
    (envCreate403Bad.post 0 "tokA").status = 403 ∧
    (envCreate403Bad.post 0 "tokA").body = none ∧
    (createEventDirect envCreate403Bad ⟨[]⟩ evSample).result = .error .jsonParse ∧
    (Except.error CreateErr.jsonParse : Except CreateErr Jv) ≠
      .error (.api "Failed to create event") :=
  ⟨rfl, rfl, rfl, by simp⟩

theorem getTokenOnce_ok_ne (o : AcquireOutcome) (t : String)
    (h : getTokenOnce o = .ok t) : t ≠ "" := by
  unfold getTokenOnce at h
  split at h
  · exact absurd h (by simp)
  · rename_i hcond
    push_neg at hcond
    obtain ⟨h1, h2, h3⟩ := hcond
    cases ho : o.token with
    | none => exact absurd ho h2
    | some t' =>
      rw [ho] at h
      simp only [Option.getD_some, Except.ok.injEq] at h
      subst h
      intro hc
      exact h3 (by rw [ho, hc])

theorem getTokenOnce_error_ne (o : AcquireOutcome) (s : String)
    (h : getTokenOnce o = .error s) : s ≠ "" := by
  unfold getTokenOnce at h
  split at h
  · simp only [Except.error.injEq] at h
    subst h
    cases hm : o.lastErrorMsg with
    | none => simp [hm]
    | some m =>
      simp only [hm]
      by_cases hme : m = ""
      · simp [hme]
      · simp [hme]
  · exact absurd h (by simp)

theorem getAuthTokenMiss_ok_ne (env : AuthEnv) (st : Store) (i : Bool) (t : String)
    (havail : env.identityAvailable = true)
    (h : (getAuthTokenMiss env st i).result = .ok t) : t ≠ "" := by
  unfold getAuthTokenMiss at h
  rw [havail] at h
  rw [if_pos rfl] at h
  split at h
  · exact absurd h (by simp)
  · rename_i t1 hacq
    split at h
    · simp only [Except.ok.injEq] at h
      subst h
      exact getTokenOnce_ok_ne env.acquire1 t1 hacq
    · split at h
      · split at h
        · exact absurd h (by simp)
        · rename_i t2 hacq2
          split at h
          · simp only [Except.ok.injEq] at h
            subst h
            exact getTokenOnce_ok_ne env.acquire2 t2 hacq2
          · exact absurd h (by simp)
      · exact absurd h (by simp)

theorem getAuthTokenMiss_error_ne (env : AuthEnv) (st : Store) (i : Bool)
    (e : JsError) (havail : env.identityAvailable = true)
    (h : (getAuthTokenMiss env st i).result = .error e) : e.jsToString ≠ "" := by
  unfold getAuthTokenMiss at h
  rw [havail] at h
  rw [if_pos rfl] at h
  split at h
  · rename_i s hacq
    simp only [Except.error.injEq] at h
    subst h
    exact getTokenOnce_error_ne env.acquire1 s hacq
  · rename_i t1 hacq
    split at h
    · exact absurd h (by simp)
    · split at h
      · split at h
        · rename_i s hacq2
          simp only [Except.error.injEq] at h
          subst h
          exact getTokenOnce_error_ne env.acquire2 s hacq2
        · split at h
          · exact absurd h (by simp)
          · simp only [Except.error.injEq] at h
            subst h
            simp [JsError.jsToString]
      · simp only [Except.error.injEq] at h
        subst h
        simp [JsError.jsToString]

theorem getAuthToken_ok_ne (env : AuthEnv) (st : Store) (i : Bool) (t : String)
    (havail : env.identityAvailable = true)
    (h : (getAuthToken env st i).result = .ok t) : t ≠ "" := by
  unfold getAuthToken at h
  split at h
  · split at h
    · rename_i tc htc hcond
      simp only [Except.ok.injEq] at h
      subst h
      exact hcond.1
    · exact getAuthTokenMiss_ok_ne env st i t havail h
  · exact getAuthTokenMiss_ok_ne env st i t havail h

theorem getAuthToken_error_ne (env : AuthEnv) (st : Store) (i : Bool)
    (e : JsError) (havail : env.identityAvailable = true)
    (h : (getAuthToken env st i).result = .error e) : e.jsToString ≠ "" := by
  unfold getAuthToken at h
  split at h
  · split at h
    · exact absurd h (by simp)
    · exact getAuthTokenMiss_error_ne env st i e havail h
  · exact getAuthTokenMiss_error_ne env st i e havail h

/-- The background `GET_AUTH_TOKEN` handler's response (from
`background.ts`): `sendResponse({token})` on success,
`sendResponse({error: error.toString()})` on failure. -/
def bgRespondAuth (r : Except JsError String) : MsgResponse :=
  match r with
  | .ok t => ⟨none, some t⟩
  | .error e => ⟨some e.jsToString, none⟩

/-- The `getAuthToken` exposed to an identity-less context through the
`GET_AUTH_TOKEN` message channel: the background coordinator executes
`getAuthToken` itself on the same storage and relays the result; the
content-script callback (over a healthy channel, no
`chrome.runtime.lastError`) resolves or rejects from the relayed response. -/
def delegatedGetAuthToken (env : AuthEnv) (st : Store) (interactive : Bool) :
    Except JsError String :=
  handleMsgCallback none
    (some (bgRespondAuth (getAuthToken env st interactive).result))

/-- C9: delegation through the `GET_AUTH_TOKEN` message channel is
observationally equivalent to the direct `getAuthToken`: for every
identity-provider/storage/probe behaviour it resolves with the same token
on success and rejects with the corresponding error string
(`error.toString()` of the direct rejection) on failure. -/
theorem delegated_equals_direct (env : AuthEnv) (st : Store) (i : Bool)
    (havail : env.identityAvailable = true) :
    delegatedGetAuthToken env st i =
      match (getAuthToken env st i).result with
      | .ok t => .ok t
      | .error e => .error (.str e.jsToString) := by
  unfold delegatedGetAuthToken bgRespondAuth
  rcases h : (getAuthToken env st i).result with e | t
  · have hne := getAuthToken_error_ne env st i e havail h
    unfold handleMsgCallback
    simp [hne]
  · have hne := getAuthToken_ok_ne env st i t havail h
    unfold handleMsgCallback
    simp [hne]

/-- Witness for C9 at a concrete environment: delegated call resolves with
the directly acquired token. -/
theorem delegated_equals_direct_witness :
    delegatedGetAuthToken envOkSample ⟨[]⟩ true = .ok "tokA" :=
  (delegated_equals_direct envOkSample ⟨[]⟩ true rfl).trans rfl

end Lanner
